import Mathlib

/-!
# Verification of the AI-powered interview simulator core services

A shallow embedding of the four backend services
(`interview_service.py`, `evaluation_service.py`, `scoring_service.py`,
`skill_gap_service.py`) together with the relevant parts of the data model
(`models/interview.py`, `models/question.py`, `models/response.py`,
`models/skill_gap.py`).

Modelling conventions:
* The relational store is a record of lists (`DB`); SQLAlchemy queries
  become `List.filter` / `List.find?`; `order_by` becomes an insertion
  sort; a commit of a request becomes returning the updated `DB`, and a
  request that raises returns the `DB` unchanged up to the last commit
  point (uncommitted session changes are rolled back).
* `DECIMAL(5,2)` / Python floats carrying scores are modelled as `ℚ`;
  Python `round(x, 2)` is `round2`.
* UUIDs are modelled as `Nat` identifiers; `datetime` values as `Nat`.
* The generative collaborator (`openai_service.chat`) plus the standard
  library's `json.loads` are modelled as parameters: a raw `String` plus
  a `loads : String → Option Json` oracle for the evaluation path, and an
  `Option Json` outcome (with `none` standing for a raised exception or a
  parse failure) for the paths that wrap the call in `try/except`.
* Values of structurally unexpected shape inside otherwise-valid JSON
  (e.g. a non-string feedback) are mapped to a shape error; the claims
  under study never exercise those corners.
-/

namespace InterviewSim

/-- Floor of a rational, written out computably. -/
def ratFloor (q : ℚ) : ℤ := Int.fdiv q.num q.den

/-- Round to the nearest integer.  (Python rounds ties to even; ties —
which no claim exercises — are modelled as rounding up.) -/
def roundQ (q : ℚ) : ℤ := ratFloor (q + 1 / 2)

/-- Python's `round(x, 2)` on a score: round to two decimal places. -/
def round2 (q : ℚ) : ℚ := ((roundQ (q * 100) : ℤ) : ℚ) / 100

/-- Python mean: `sum(xs) / len(xs)` on a list of scores. -/
def meanQ (xs : List ℚ) : ℚ := xs.sum / (xs.length : ℚ)

/-- Python's `f"{x:.1f}"` on a nonnegative score: one decimal place. -/
def formatFix1 (q : ℚ) : String :=
  let n : ℤ := roundQ (q * 10)
  toString (n / 10) ++ "." ++ toString (n % 10).natAbs

/-- JSON values, as produced by the standard library's JSON loader. -/
inductive Json where
  | null
  | bool (b : Bool)
  | num (q : ℚ)
  | str (s : String)
  | arr (elems : List Json)
  | obj (fields : List (String × Json))
deriving Repr

/-- Dictionary lookup on a parsed JSON object (`d.get(key)` / `d[key]`). -/
def jsonLookup (fields : List (String × Json)) (key : String) : Option Json :=
  (fields.find? (fun kv => kv.1 == key)).map (fun kv => kv.2)

/-- A JSON array of strings, or a shape failure. -/
def asStringList : Json → Option (List String)
  | .arr xs => xs.mapM (fun j => match j with | .str s => some s | _ => none)
  | _ => none

/-- A JSON object all of whose values are strings, or a shape failure. -/
def asStringMap : List (String × Json) → Option (List (String × String))
  | [] => some []
  | (k, .str v) :: rest => (asStringMap rest).map (fun m => (k, v) :: m)
  | _ => none

/-- The markdown-fence stripping shared by every service
(`raw.strip()`, drop a leading ``` fence and an optional `json` tag,
`strip()` again). -/
def stripWrapping (raw : String) : String :=
  let cleaned := raw.trim
  let cleaned :=
    if cleaned.startsWith "```" then
      let part := (cleaned.splitOn "```").getD 1 ""
      if part.startsWith "json" then part.drop 4 else part
    else cleaned
  cleaned.trim

/-! ## Data model (models/) -/

/-- Embeds `models/question.py` `QuestionType`. -/
inductive QuestionType where
  | technical | behavioral | coding | system_design
deriving Repr, DecidableEq

def questionTypeStr : QuestionType → String
  | .technical => "technical"
  | .behavioral => "behavioral"
  | .coding => "coding"
  | .system_design => "system_design"

/-- Embeds `models/interview.py` `DifficultyLevel`. -/
inductive DifficultyLevel where
  | beginner | intermediate | advanced
deriving Repr, DecidableEq

def difficultyStr : DifficultyLevel → String
  | .beginner => "beginner"
  | .intermediate => "intermediate"
  | .advanced => "advanced"

/-- Embeds `models/interview.py` `InterviewStatus`. -/
inductive InterviewStatus where
  | in_progress | completed | abandoned
deriving Repr, DecidableEq

def statusStr : InterviewStatus → String
  | .in_progress => "in_progress"
  | .completed => "completed"
  | .abandoned => "abandoned"

/-- Embeds `models/skill_gap.py` `ProficiencyLevel`. -/
inductive ProficiencyLevel where
  | weak | moderate | strong
deriving Repr, DecidableEq

def proficiencyStr : ProficiencyLevel → String
  | .weak => "weak"
  | .moderate => "moderate"
  | .strong => "strong"

/-- Embeds `models/interview.py` `Interview` (columns used by the services). -/
structure Interview where
  id : Nat
  user_id : Nat
  job_role : String
  difficulty_level : DifficultyLevel
  status : InterviewStatus
  overall_score : Option ℚ
  started_at : Nat
  completed_at : Option Nat
deriving Repr, DecidableEq

/-- Embeds `models/question.py` `Question`. -/
structure Question where
  id : Nat
  interview_id : Nat
  question_text : String
  question_type : QuestionType
  difficulty : String
  skill_category : String
  expected_answer : Option String
  order_number : Nat
deriving Repr, DecidableEq

/-- Embeds `models/response.py` `Response`.  The `strengths`/`weaknesses`
columns hold `json.dumps` of string lists; since every write dumps a
list and every read loads it back (with `[]` for empty), they are
modelled directly as string lists. -/
structure Response where
  id : Nat
  question_id : Nat
  user_answer : String
  ai_feedback : String
  score : Option ℚ
  strengths : List String
  weaknesses : List String
  time_taken_seconds : Option Nat
deriving Repr, DecidableEq

/-- Embeds `models/skill_gap.py` `SkillGap`. -/
structure SkillGap where
  id : Nat
  user_id : Nat
  interview_id : Nat
  skill_name : String
  proficiency_level : ProficiencyLevel
  gap_score : ℚ
  recommendation : String
  identified_at : Nat
deriving Repr, DecidableEq

/-- The persistent store: one list per table plus a fresh-id counter. -/
structure DB where
  interviews : List Interview
  questions : List Question
  responses : List Response
  skill_gaps : List SkillGap
  next_id : Nat
deriving Repr, DecidableEq

/-- Embeds `db.query(Interview).filter(Interview.id == iid).first()`. -/
def findInterview (db : DB) (iid : Nat) : Option Interview :=
  db.interviews.find? (fun i => i.id == iid)

/-- Embeds `db.query(Question).filter(Question.interview_id == iid).all()`. -/
def questionsFor (db : DB) (iid : Nat) : List Question :=
  db.questions.filter (fun q => q.interview_id == iid)

/-- Embeds `question_ids = [q.id for q in questions]`. -/
def questionIds (db : DB) (iid : Nat) : List Nat :=
  (questionsFor db iid).map (fun q => q.id)

/-- Embeds `db.query(Response).filter(Response.question_id.in_(question_ids))`. -/
def sessionResponses (db : DB) (iid : Nat) : List Response :=
  db.responses.filter (fun r => (questionIds db iid).contains r.question_id)

/-- Write an interview's `overall_score` column. -/
def setOverallScore (db : DB) (iid : Nat) (v : Option ℚ) : DB :=
  { db with interviews :=
      db.interviews.map (fun i =>
        if i.id == iid then { i with overall_score := v } else i) }

/-- The `unique=True` constraint on `Response.question_id`
(`models/response.py` line 18): an insert into `responses` fails at the
storage layer when a row with the same `question_id` already exists. -/
def insertResponse (db : DB) (r : Response) : Option DB :=
  if db.responses.any (fun r0 => r0.question_id == r.question_id) then none
  else some { db with responses := db.responses ++ [r] }

/-! ## Stable sorting (`order_by`) -/

def insertOrdered (le : α → α → Bool) (x : α) : List α → List α
  | [] => [x]
  | y :: ys => if le x y then x :: y :: ys else y :: insertOrdered le x ys

/-- Insertion sort standing in for SQL `ORDER BY`. -/
def sortByKey (le : α → α → Bool) : List α → List α
  | [] => []
  | x :: xs => insertOrdered le x (sortByKey le xs)

theorem insertOrdered_perm (le : α → α → Bool) (x : α) (l : List α) :
    (insertOrdered le x l).Perm (x :: l) := by
  induction l with
  | nil => simp [insertOrdered]
  | cons y ys ih =>
    by_cases h : le x y
    · simp [insertOrdered, h]
    · simp only [insertOrdered, h, if_neg, Bool.false_eq_true, not_false_iff, ite_false]
      exact ((ih.cons y).trans (List.Perm.swap x y ys))

theorem sortByKey_perm (le : α → α → Bool) (l : List α) :
    (sortByKey le l).Perm l := by
  induction l with
  | nil => simp [sortByKey]
  | cons x xs ih =>
    exact (insertOrdered_perm le x (sortByKey le xs)).trans (ih.cons x)

theorem mem_sortByKey {le : α → α → Bool} {l : List α} {a : α} :
    a ∈ sortByKey le l ↔ a ∈ l :=
  (sortByKey_perm le l).mem_iff

/-! ## Classification thresholds -/

/-- Embeds `SkillGapService._get_proficiency_level`. -/
def get_proficiency_level (score : ℚ) : ProficiencyLevel :=
  if score ≥ 75 then .strong
  else if score ≥ 50 then .moderate
  else .weak

/-- Embeds `schemas/score.py` `PerformanceLevel`. -/
structure PerformanceLevel where
  level : String
  label : String
  message : String
  color : String
deriving Repr, DecidableEq

/-- Embeds `ScoringService._get_performance_level`. -/
def get_performance_level (score : ℚ) : PerformanceLevel :=
  if score ≥ 85 then
    { level := "excellent"
      label := "Excellent! 🌟"
      message := "Outstanding performance! You demonstrated strong knowledge and clear communication."
      color := "green" }
  else if score ≥ 70 then
    { level := "good"
      label := "Good 👍"
      message := "Good performance! You showed solid understanding with some areas to improve."
      color := "blue" }
  else if score ≥ 50 then
    { level := "average"
      label := "Average 📈"
      message := "Average performance. Focus on the improvement areas to boost your score."
      color := "yellow" }
  else
    { level := "poor"
      label := "Needs Work 💪"
      message := "Keep practicing! Review the key concepts and try again."
      color := "red" }

/-! ## Answer evaluation (`evaluation_service.py`) -/

/-- Errors raised by `EvaluationService`: the `ValueError`s of
`submit_answer` (not-found lookups and the duplicate-answer conflict,
message "Question ... has already been answered"), the
`json.JSONDecodeError` escaping `_parse_evaluation` (a collaborator
failure), and a structurally malformed evaluation payload. -/
inductive SubmitError where
  | interviewNotFound
  | questionNotFound
  | conflict
  | collaboratorFailure
  | badShape
deriving Repr, DecidableEq

/-- Embeds `EvaluationService._parse_evaluation`: strip incidental wrapping,
then hand the text to the JSON loader. -/
def parse_evaluation (loads : String → Option Json) (raw : String) : Option Json :=
  loads (stripWrapping raw)

/-- The fields read off the parsed evaluation dict in
`submit_answer` (lines 146-157 and 167-180), with the `.get` defaults:
`score` defaults to 0, `feedback` to `""`, the three lists to `[]`. -/
structure EvalFields where
  score : ℚ
  feedback : String
  strengths : List String
  improvements : List String
  keywords_mentioned : List String
deriving Repr, DecidableEq

def extractEvaluation (fields : List (String × Json)) : Option EvalFields := do
  let score ← match jsonLookup fields "score" with
    | none => some (0 : ℚ)
    | some (.num q) => some q
    | some _ => none
  let feedback ← match jsonLookup fields "feedback" with
    | none => some ""
    | some (.str s) => some s
    | some _ => none
  let strengths ← match jsonLookup fields "strengths" with
    | none => some []
    | some j => asStringList j
  let improvements ← match jsonLookup fields "improvements" with
    | none => some []
    | some j => asStringList j
  let keywords ← match jsonLookup fields "keywords_mentioned" with
    | none => some []
    | some j => asStringList j
  pure { score := score, feedback := feedback, strengths := strengths,
         improvements := improvements, keywords_mentioned := keywords }

/-- Embeds `schemas/response.py` `SubmitAnswerResponse`. -/
structure SubmitAnswerResponse where
  response_id : Nat
  interview_id : Nat
  question_id : Nat
  question_text : String
  user_answer : String
  score : ℚ
  feedback : String
  strengths : List String
  improvements : List String
  keywords_mentioned : List String
  time_taken_seconds : Option Nat
deriving Repr, DecidableEq

/-- Embeds `EvaluationService._update_interview_score`: recompute the average
of all non-null scores over the session's responses and persist it; a
session with no scored responses is left untouched. -/
def update_interview_score (iid : Nat) (db : DB) : DB :=
  match findInterview db iid with
  | none => db
  | some _ =>
    let scores := (sessionResponses db iid).filterMap (fun r => r.score)
    if scores.isEmpty then db
    else setOverallScore db iid (some (round2 (meanQ scores)))

/-- Embeds `EvaluationService.submit_answer`.  `raw_response` is the
collaborator's output for this call and `loads` the JSON loader; on any
raised error the uncommitted session state is discarded, so the `DB` is
returned unchanged. -/
def submit_answer (iid qid : Nat) (user_answer : String)
    (time_taken : Option Nat) (loads : String → Option Json)
    (raw_response : String) (db : DB) :
    DB × Except SubmitError SubmitAnswerResponse :=
  match findInterview db iid with
  | none => (db, .error .interviewNotFound)
  | some _interview =>
    match db.questions.find? (fun q => q.id == qid && q.interview_id == iid) with
    | none => (db, .error .questionNotFound)
    | some question =>
      if (db.responses.find? (fun r => r.question_id == qid)).isSome then
        (db, .error .conflict)
      else
        match parse_evaluation loads raw_response with
        | none => (db, .error .collaboratorFailure)
        | some (.obj fields) =>
          match extractEvaluation fields with
          | none => (db, .error .badShape)
          | some ev =>
            let r : Response :=
              { id := db.next_id, question_id := qid, user_answer := user_answer,
                ai_feedback := ev.feedback, score := some ev.score,
                strengths := ev.strengths, weaknesses := ev.improvements,
                time_taken_seconds := time_taken }
            match insertResponse { db with next_id := db.next_id + 1 } r with
            | none => (db, .error .conflict)
            | some db1 =>
              let db2 := update_interview_score iid db1
              (db2, .ok
                { response_id := r.id, interview_id := iid, question_id := qid,
                  question_text := question.question_text,
                  user_answer := user_answer, score := ev.score,
                  feedback := ev.feedback, strengths := ev.strengths,
                  improvements := ev.improvements,
                  keywords_mentioned := ev.keywords_mentioned,
                  time_taken_seconds := time_taken })
        | some _ => (db, .error .badShape)

/-- Python truthiness of an optional score: `None` and `Decimal("0")`
are both falsy. -/
def truthyScore : Option ℚ → Bool
  | none => false
  | some q => q != 0

/-- Embeds `schemas/response.py` `ResponseDetail`. -/
structure ResponseDetail where
  response_id : Nat
  question_id : Nat
  question_text : String
  question_type : String
  order_number : Nat
  user_answer : String
  score : Option ℚ
  feedback : String
  strengths : List String
  improvements : List String
  keywords_mentioned : List String
  time_taken_seconds : Option Nat
deriving Repr, DecidableEq

/-- Embeds `schemas/response.py` `InterviewResultsResponse`. -/
structure InterviewResultsResponse where
  interview_id : Nat
  job_role : String
  difficulty : String
  status : String
  overall_score : Option ℚ
  total_questions : Nat
  answered : Nat
  responses : List ResponseDetail
  created_at : Nat
  completed_at : Option Nat
deriving Repr, DecidableEq

/-- Embeds `EvaluationService.get_interview_results`.  Note the truthiness
tests `float(response.score) if response.score else None` and
`float(interview.overall_score) if interview.overall_score else None`. -/
def get_interview_results (iid : Nat) (db : DB) :
    Except SubmitError InterviewResultsResponse :=
  match findInterview db iid with
  | none => .error .interviewNotFound
  | some interview =>
    let qs := sortByKey (fun a b => decide (a.order_number ≤ b.order_number))
      (questionsFor db iid)
    let details := qs.filterMap (fun q =>
      (db.responses.find? (fun r => r.question_id == q.id)).map (fun r =>
        ({ response_id := r.id, question_id := q.id,
           question_text := q.question_text,
           question_type := questionTypeStr q.question_type,
           order_number := q.order_number, user_answer := r.user_answer,
           score := if truthyScore r.score then r.score else none,
           feedback := r.ai_feedback, strengths := r.strengths,
           improvements := r.weaknesses, keywords_mentioned := [],
           time_taken_seconds := r.time_taken_seconds } : ResponseDetail)))
    .ok { interview_id := interview.id, job_role := interview.job_role,
          difficulty := difficultyStr interview.difficulty_level,
          status := statusStr interview.status,
          overall_score :=
            if truthyScore interview.overall_score then interview.overall_score
            else none,
          total_questions := qs.length, answered := details.length,
          responses := details, created_at := interview.started_at,
          completed_at := interview.completed_at }

/-! ## Scoring aggregation (`scoring_service.py`) -/

/-- Errors escaping `ScoringService.get_interview_score`: the not-found
`ValueError` and the post-commit shape failures (`AttributeError` on a
non-dict summary, pydantic validation of the summary fields). -/
inductive ScoreError where
  | notFound
  | shapeError
deriving Repr, DecidableEq

/-- Embeds `schemas/score.py` `CategoryScore`. -/
structure CategoryScore where
  category : String
  average_score : ℚ
  total_questions : Nat
  answered : Nat
deriving Repr, DecidableEq

/-- Embeds `schemas/score.py` `QuestionScoreDetail`. -/
structure QuestionScoreDetail where
  question_id : Nat
  question_text : String
  question_type : String
  order_number : Nat
  score : Option ℚ
  feedback : Option String
  strengths : List String
  improvements : List String
  answered : Bool
deriving Repr, DecidableEq

/-- Embeds `schemas/score.py` `InterviewScoreResponse`. -/
structure InterviewScoreResponse where
  interview_id : Nat
  job_role : String
  difficulty : String
  status : String
  overall_score : ℚ
  performance : PerformanceLevel
  total_questions : Nat
  answered : Nat
  skipped : Nat
  completion_rate : ℚ
  category_scores : List CategoryScore
  question_scores : List QuestionScoreDetail
  overall_summary : Option String
  top_strengths : List String
  top_improvements : List String
  started_at : Nat
  completed_at : Option Nat
deriving Repr, DecidableEq

/-- Ordered-dict update: bump the entry for `key` (inserting `dflt`
first when absent), preserving insertion order — Python dict semantics
as used by the grouping loops. -/
def updateAssoc (key : String) (dflt : β) (f : β → β) :
    List (String × β) → List (String × β)
  | [] => [(key, f dflt)]
  | (k, v) :: rest =>
    if k == key then (k, f v) :: rest
    else (k, v) :: updateAssoc key dflt f rest

/-- Embeds `float(response.score) if response.score else 0.0` in the
per-question loop of `get_interview_score`. -/
def scoreVal (r : Response) : ℚ :=
  if truthyScore r.score then (r.score.getD 0) else 0

/-- Embeds `ScoringService._calculate_category_scores`: group questions by
type, average the scores of answered ones (0.0 for an unanswered
group), rounded to 2 decimals. -/
def calculate_category_scores (qs : List Question)
    (respOf : Nat → Option Response) : List CategoryScore :=
  let cats := qs.foldl (fun acc q =>
    let cat := questionTypeStr q.question_type
    updateAssoc cat ([], 0, 0) (fun d =>
      let d := (d.1, d.2.1 + 1, d.2.2)
      match respOf q.id with
      | some r =>
        match r.score with
        | some s => (d.1 ++ [s], d.2.1, d.2.2 + 1)
        | none => d
      | none => d) acc) ([] : List (String × (List ℚ × Nat × Nat)))
  cats.map (fun kv =>
    { category := kv.1
      average_score := round2 (if kv.2.1.isEmpty then 0 else meanQ kv.2.1)
      total_questions := kv.2.2.1
      answered := kv.2.2.2 })

/-- The deterministic templated summary returned by
`ScoringService._generate_summary` when the collaborator call or its
JSON parse fails. -/
def summaryFallback (overall : ℚ) : Json :=
  .obj [("overall_summary",
          .str ("Interview completed with an overall score of "
                ++ formatFix1 overall ++ "/100.")),
        ("top_strengths", .arr [.str "Completed the interview"]),
        ("top_improvements", .arr [.str "Review answers for improvement areas"])]

/-- Embeds `ScoringService._generate_summary`: the collaborator call and JSON
parse are wrapped in `try/except`, so `outcome = none` (raise or parse
failure) yields the templated fallback and `some j` the parsed value. -/
def generate_summary (overall : ℚ) (outcome : Option Json) : Json :=
  match outcome with
  | some j => j
  | none => summaryFallback overall

/-- Reading `overall_summary` / `top_strengths` / `top_improvements`
off the summary dict (`summary_data.get(...)` plus the pydantic field
types `Optional[str]` / `List[str]`); a non-dict or ill-typed value is
a shape failure. -/
def extractSummaryFields (j : Json) :
    Option (Option String × List String × List String) :=
  match j with
  | .obj fields => do
    let os ← match jsonLookup fields "overall_summary" with
      | none => some none
      | some .null => some none
      | some (.str s) => some (some s)
      | some _ => none
    let ts ← match jsonLookup fields "top_strengths" with
      | none => some []
      | some v => asStringList v
    let ti ← match jsonLookup fields "top_improvements" with
      | none => some []
      | some v => asStringList v
    pure (os, ts, ti)
  | _ => none

/-- The questions of a session in `order_number` order, as queried by
`get_interview_results` / `get_interview_score`. -/
def sortedQuestions (db : DB) (iid : Nat) : List Question :=
  sortByKey (fun a b => decide (a.order_number ≤ b.order_number))
    (questionsFor db iid)

/-- Embeds `responses_map.get(str(question.id))` over the session's responses. -/
def respOf (db : DB) (iid qid : Nat) : Option Response :=
  (sessionResponses db iid).find? (fun r => r.question_id == qid)

/-- The `scored_values` list accumulated by `get_interview_score`:
one value per answered question, a null score contributing `0.0`. -/
def scored_values (db : DB) (iid : Nat) : List ℚ :=
  (sortedQuestions db iid).filterMap (fun q => (respOf db iid q.id).map scoreVal)

/-- The overall score of `get_interview_score`: mean of `scored_values`
rounded to 2 decimals, or `0.0` when nothing was answered. -/
def overall_of (db : DB) (iid : Nat) : ℚ :=
  if (scored_values db iid).isEmpty then 0
  else round2 (meanQ (scored_values db iid))

/-- The per-question breakdown built by `get_interview_score`. -/
def question_scores_of (db : DB) (iid : Nat) : List QuestionScoreDetail :=
  (sortedQuestions db iid).map (fun q =>
    match respOf db iid q.id with
    | some r =>
      { question_id := q.id, question_text := q.question_text,
        question_type := questionTypeStr q.question_type,
        order_number := q.order_number, score := some (scoreVal r),
        feedback := some r.ai_feedback, strengths := r.strengths,
        improvements := r.weaknesses, answered := true }
    | none =>
      { question_id := q.id, question_text := q.question_text,
        question_type := questionTypeStr q.question_type,
        order_number := q.order_number, score := none, feedback := none,
        strengths := [], improvements := [], answered := false })

/-- Embeds `ScoringService.get_interview_score`.  `summarizeOutcome` models
the summarization collaborator call (`none` = raised or unparseable).
The overall score is committed (`db.commit()` at line 278) before the
summary step, so a later shape failure still leaves it persisted. -/
def get_interview_score (iid : Nat) (generate_summary_flag : Bool)
    (summarizeOutcome : Option Json) (db : DB) :
    DB × Except ScoreError InterviewScoreResponse :=
  match findInterview db iid with
  | none => (db, .error .notFound)
  | some interview =>
    let qs := sortedQuestions db iid
    let raw := sessionResponses db iid
    let overall := overall_of db iid
    let db1 := setOverallScore db iid (some overall)
    let total := qs.length
    let answered := raw.length
    let completion : ℚ :=
      if total > 0 then round2 ((answered : ℚ) / (total : ℚ) * 100) else 0
    let summary_json :=
      if generate_summary_flag && answered > 0 then
        generate_summary overall summarizeOutcome
      else
        .obj [("overall_summary", .null), ("top_strengths", .arr []),
              ("top_improvements", .arr [])]
    match extractSummaryFields summary_json with
    | none => (db1, .error .shapeError)
    | some (os, ts, ti) =>
      (db1, .ok
        { interview_id := interview.id, job_role := interview.job_role,
          difficulty := difficultyStr interview.difficulty_level,
          status := statusStr interview.status, overall_score := overall,
          performance := get_performance_level overall,
          total_questions := total, answered := answered,
          skipped := total - answered, completion_rate := completion,
          category_scores :=
            calculate_category_scores qs (fun qid => respOf db iid qid),
          question_scores := question_scores_of db iid,
          overall_summary := os, top_strengths := ts, top_improvements := ti,
          started_at := interview.started_at,
          completed_at := interview.completed_at })

/-! ## Skill gap analysis (`skill_gap_service.py`) -/

/-- Errors escaping `SkillGapService.analyze_interview`: the three
`ValueError`s (lines 198, 222, 230) and a malformed recommendations
mapping. -/
inductive AnalyzeError where
  | notFound
  | noQuestions
  | noAnswers
  | shapeError
deriving Repr, DecidableEq

/-- Embeds `schemas/skill_gap.py` `SkillGapSummary`. -/
structure SkillGapSummary where
  skill_name : String
  gap_score : ℚ
  proficiency_level : ProficiencyLevel
  recommendation : String
deriving Repr, DecidableEq

/-- Embeds `schemas/skill_gap.py` `AnalyzeSkillGapsResponse`. -/
structure AnalyzeSkillGapsResponse where
  interview_id : Nat
  job_role : String
  overall_score : Option ℚ
  total_skills : Nat
  weak_skills : Nat
  moderate_skills : Nat
  strong_skills : Nat
  skill_gaps : List SkillGapSummary
  analyzed_at : Nat
deriving Repr, DecidableEq

/-- Embeds `question.skill_category or "General"`: the empty string is the
only falsy value the non-nullable column can hold. -/
def skillKey (q : Question) : String :=
  if q.skill_category == "" then "General" else q.skill_category

/-- Embeds `SkillGapService._build_skill_scores`: group the questions by skill
category (insertion order) and average the non-null scores of their
answered responses (`0.0` for a skill with none), rounded to 2
decimals.  Only the per-skill average feeds the persisted rows. -/
def build_skill_scores (qs : List Question)
    (respOf : Nat → Option Response) : List (String × ℚ) :=
  let skills := qs.foldl (fun acc q =>
    updateAssoc (skillKey q) [] (fun d =>
      match respOf q.id with
      | some r =>
        match r.score with
        | some s => d ++ [s]
        | none => d
      | none => d) acc) ([] : List (String × List ℚ))
  skills.map (fun kv => (kv.1, round2 (if kv.2.isEmpty then 0 else meanQ kv.2)))

/-- Embeds `SkillGapService._generate_recommendations` followed by the
`data.get("recommendations", {})` read: the collaborator call, parse
and dict access inside the `try` collapse to `outcome`; `none` or a
non-dict payload yields the per-skill default templates, a dict without
the key yields `{}`, and a non-dict or ill-typed `recommendations`
value is a shape failure (it explodes outside the `try`). -/
def recommendationsFor (outcome : Option Json)
    (skill_scores : List (String × ℚ)) : Option (List (String × String)) :=
  let defaults := skill_scores.map (fun kv =>
    (kv.1, "Focus on improving your " ++ kv.1
           ++ " skills through practice and study."))
  match outcome with
  | none => some defaults
  | some (.obj fields) =>
    match jsonLookup fields "recommendations" with
    | none => some []
    | some (.obj recs) => asStringMap recs
    | some _ => none
  | some _ => some defaults

/-- Embeds `recommendations.get(skill_name, f"Practice {skill_name} skills
regularly.")`. -/
def recFor (recs : List (String × String)) (skill : String) : String :=
  match recs.find? (fun kv => kv.1 == skill) with
  | some kv => kv.2
  | none => "Practice " ++ skill ++ " skills regularly."

/-- Embeds `SkillGapService._build_response_from_existing`. -/
def build_response_from_existing (interview : Interview)
    (existing : List SkillGap) (now : Nat) : AnalyzeSkillGapsResponse :=
  { interview_id := interview.id, job_role := interview.job_role,
    overall_score :=
      if truthyScore interview.overall_score then interview.overall_score
      else none,
    total_skills := existing.length,
    weak_skills :=
      (existing.filter (fun g => g.proficiency_level == .weak)).length,
    moderate_skills :=
      (existing.filter (fun g => g.proficiency_level == .moderate)).length,
    strong_skills :=
      (existing.filter (fun g => g.proficiency_level == .strong)).length,
    skill_gaps := existing.map (fun g =>
      { skill_name := g.skill_name, gap_score := g.gap_score,
        proficiency_level := g.proficiency_level,
        recommendation := g.recommendation }),
    analyzed_at := match existing with | [] => now | g :: _ => g.identified_at }

/-- The fresh `SkillGap` rows inserted by one analysis run. -/
def freshGaps (uid iid : Nat) (now : Nat)
    (skill_scores : List (String × ℚ)) (recs : List (String × String))
    (baseId : Nat) : List SkillGap :=
  (List.range skill_scores.length).zip skill_scores |>.map (fun p =>
    { id := baseId + p.1, user_id := uid, interview_id := iid,
      skill_name := p.2.1,
      proficiency_level := get_proficiency_level p.2.2,
      gap_score := p.2.2,
      recommendation := recFor recs p.2.1,
      identified_at := now })

/-- Embeds `SkillGapService.analyze_interview`.  `recsOutcome` models the
recommendations collaborator call; `now` the single
`datetime.utcnow()` taken before the insert loop.  On any raised error
the pending deletes/inserts are rolled back, so the `DB` comes back
unchanged; on success the prior SkillGap set of the session has been
deleted and the fresh set inserted in the same commit. -/
def analyze_interview (iid uid : Nat) (force : Bool)
    (recsOutcome : Option Json) (now : Nat) (db : DB) :
    DB × Except AnalyzeError AnalyzeSkillGapsResponse :=
  match findInterview db iid with
  | none => (db, .error .notFound)
  | some interview =>
    let existing := db.skill_gaps.filter (fun g => g.interview_id == iid)
    if !existing.isEmpty && !force then
      (db, .ok (build_response_from_existing interview existing now))
    else
      let qs := questionsFor db iid
      if qs.isEmpty then (db, .error .noQuestions)
      else
        let raw := sessionResponses db iid
        if raw.isEmpty then (db, .error .noAnswers)
        else
          let skill_scores :=
            build_skill_scores qs (fun qid => respOf db iid qid)
          match recommendationsFor recsOutcome skill_scores with
          | none => (db, .error .shapeError)
          | some recs =>
            let newGaps := freshGaps uid iid now skill_scores recs db.next_id
            let db1 :=
              { db with
                skill_gaps :=
                  db.skill_gaps.filter (fun g => g.interview_id != iid)
                    ++ newGaps,
                next_id := db.next_id + newGaps.length }
            (db1, .ok
              { interview_id := iid, job_role := interview.job_role,
                overall_score :=
                  if truthyScore interview.overall_score then
                    interview.overall_score
                  else none,
                total_skills := newGaps.length,
                weak_skills := (newGaps.filter
                  (fun g => proficiencyStr g.proficiency_level == "weak")).length,
                moderate_skills := (newGaps.filter
                  (fun g => proficiencyStr g.proficiency_level == "moderate")).length,
                strong_skills := (newGaps.filter
                  (fun g => proficiencyStr g.proficiency_level == "strong")).length,
                skill_gaps := newGaps.map (fun g =>
                  { skill_name := g.skill_name, gap_score := g.gap_score,
                    proficiency_level := g.proficiency_level,
                    recommendation := g.recommendation }),
                analyzed_at := now })

/-! ## Interview lifecycle (`interview_service.py`) -/

/-- One element of the question-generation collaborator's JSON array,
as read by `create_interview`: `q_data["question"]` is required, the
rest are read with `.get` defaults.  The collaborator's contract also
carries an optional skill category, which `create_interview` never
reads. -/
structure GenQuestion where
  question : String
  qtype : Option String
  difficulty : Option String
  expected_points : Option (List String)
  skill_category : Option String
deriving Repr, DecidableEq

/-- Embeds `InterviewService._map_difficulty`. -/
def map_difficulty (s : String) : DifficultyLevel :=
  if s.toLower == "beginner" then .beginner
  else if s.toLower == "intermediate" then .intermediate
  else if s.toLower == "advanced" then .advanced
  else .intermediate

/-- Embeds `InterviewService._map_question_type` (`"mixed"` maps to
`TECHNICAL`, as does any unknown value). -/
def map_question_type (s : String) : QuestionType :=
  if s.toLower == "technical" then .technical
  else if s.toLower == "behavioral" then .behavioral
  else .technical

/-- Embeds `InterviewService.create_interview` after the collaborator returned
`qdata`: persist the interview and its questions as one commit.  Every
question's `skill_category` is set to the request's `job_role`
(line 176); the collaborator's skill category is dropped. -/
def create_interview (uid : Nat) (job_role : String) (difficulty : String)
    (qdata : List GenQuestion) (now : Nat) (db : DB) : DB × Nat :=
  let iid := db.next_id
  let interview : Interview :=
    { id := iid, user_id := uid, job_role := job_role,
      difficulty_level := map_difficulty difficulty,
      status := .in_progress, overall_score := none,
      started_at := now, completed_at := none }
  let newQs := (qdata.enum).map (fun p =>
    ({ id := db.next_id + 1 + p.1, interview_id := iid,
       question_text := p.2.question,
       question_type := map_question_type (p.2.qtype.getD "technical"),
       difficulty := p.2.difficulty.getD difficulty,
       skill_category := job_role,
       expected_answer :=
         some (String.intercalate ", " (p.2.expected_points.getD [])),
       order_number := p.1 + 1 } : Question))
  ({ db with interviews := db.interviews ++ [interview],
             questions := db.questions ++ newQs,
             next_id := db.next_id + 1 + qdata.length }, iid)

/-- Embeds `schemas/interview.py` `InterviewSummary`. -/
structure InterviewSummary where
  interview_id : Nat
  job_role : String
  difficulty : String
  total_questions : Nat
  status : String
  overall_score : Option ℚ
  created_at : Nat
deriving Repr, DecidableEq

/-- Embeds `InterviewService.get_user_interviews`: list the user's sessions,
most recent first, with the same truthiness test on `overall_score`. -/
def get_user_interviews (uid : Nat) (db : DB) : List InterviewSummary :=
  let itvs := sortByKey (fun a b => decide (b.started_at ≤ a.started_at))
    (db.interviews.filter (fun i => i.user_id == uid))
  itvs.map (fun i =>
    { interview_id := i.id, job_role := i.job_role,
      difficulty := difficultyStr i.difficulty_level,
      total_questions := (db.questions.filter
        (fun q => q.interview_id == i.id)).length,
      status := statusStr i.status,
      overall_score :=
        if truthyScore i.overall_score then i.overall_score else none,
      created_at := i.started_at })

/-! ## Specification-side formulas -/

/-- Modelled from the spec's invariant wording: `overall_score =
round(mean(score over all Responses with a non-null score), 2)`, and a
session with zero scored responses carries no overall score. -/
def specOverallScore (db : DB) (iid : Nat) : Option ℚ :=
  let scores := (sessionResponses db iid).filterMap (fun r => r.score)
  if scores.isEmpty then none else some (round2 (meanQ scores))

/-! ## Helper lemmas -/

theorem update_interview_score_responses (iid : Nat) (db : DB) :
    (update_interview_score iid db).responses = db.responses := by
  unfold update_interview_score
  cases findInterview db iid <;> simp [setOverallScore]
  split <;> rfl

theorem update_interview_score_questions (iid : Nat) (db : DB) :
    (update_interview_score iid db).questions = db.questions := by
  unfold update_interview_score
  cases findInterview db iid <;> simp [setOverallScore]
  split <;> rfl

theorem find?_map_setOverall (l : List Interview) (iid : Nat) (v : Option ℚ) :
    (l.map (fun i => if i.id == iid then { i with overall_score := v } else i)).find?
        (fun i => i.id == iid)
      = (l.find? (fun i => i.id == iid)).map
          (fun i => { i with overall_score := v }) := by
  induction l with
  | nil => rfl
  | cons a l ih =>
    by_cases h : a.id = iid
    · simp [List.find?_cons, h]
    · have hb : (a.id == iid) = false := by simp [h]
      simp only [List.map_cons, List.find?_cons, hb]
      simpa [hb] using ih

theorem findInterview_setOverall (db : DB) (iid : Nat) (v : Option ℚ) :
    findInterview (setOverallScore db iid v) iid
      = (findInterview db iid).map (fun i => { i with overall_score := v }) := by
  unfold findInterview setOverallScore
  exact find?_map_setOverall db.interviews iid v

/-- A `find?` ignores the erasure of an element the predicate rejects. -/
theorem find?_erase_of_not {α : Type} [DecidableEq α] (l : List α) (a : α)
    (p : α → Bool) (hpa : p a = false) : (l.erase a).find? p = l.find? p := by
  induction l with
  | nil => rfl
  | cons b l ih =>
    by_cases hb : b = a
    · subst hb
      rw [List.erase_cons_head]
      rw [List.find?_cons]
      simp [hpa]
    · rw [List.erase_cons_tail (by simpa using hb)]
      rw [List.find?_cons, List.find?_cons]
      cases hpb : p b
      · simpa [hpb] using ih
      · simp [hpb]

/-- Looking up each key of a duplicate-free key list in a table whose
rows carry distinct keys drawn from that list enumerates the rows, up
to permutation. -/
theorem filterMap_find?_perm {α : Type} [DecidableEq α] (key : α → Nat) :
    ∀ (keys : List Nat) (rs : List α), keys.Nodup →
      (∀ r ∈ rs, key r ∈ keys) → (rs.map key).Nodup →
      (keys.filterMap (fun k => rs.find? (fun r => key r == k))).Perm rs := by
  intro keys
  induction keys with
  | nil =>
    intro rs _ hrk _
    cases rs with
    | nil => simp
    | cons r rs => exact absurd (hrk r (by simp)) (by simp)
  | cons k ks ih =>
    intro rs hk hrk hrn
    have hks : ks.Nodup := (List.nodup_cons.mp hk).2
    have hknot : k ∉ ks := (List.nodup_cons.mp hk).1
    cases hfind : rs.find? (fun r => key r == k) with
    | none =>
      have hnone := List.find?_eq_none.mp hfind
      have hrk' : ∀ r ∈ rs, key r ∈ ks := by
        intro r hr
        have := hrk r hr
        rcases List.mem_cons.mp this with h | h
        · exact absurd (by simpa using h) (by simpa using hnone r hr)
        · exact h
      simpa [List.filterMap_cons, hfind] using ih rs hks hrk' hrn
    | some r =>
      have hrmem : r ∈ rs := List.mem_of_find?_eq_some hfind
      have hrkey : key r = k := by simpa using List.find?_some hfind
      have hnodup_rs : rs.Nodup := List.Nodup.of_map _ hrn
      have herase_keys : ((rs.erase r).map key).Nodup :=
        List.Nodup.sublist (List.Sublist.map key (List.erase_sublist r rs)) hrn
      have hrk' : ∀ r' ∈ rs.erase r, key r' ∈ ks := by
        intro r' hr'
        have hr'rs : r' ∈ rs := List.mem_of_mem_erase hr'
        rcases List.mem_cons.mp (hrk r' hr'rs) with h | h
        · have : r' = r :=
            List.inj_on_of_nodup_map hrn hr'rs hrmem (h.trans hrkey.symm)
          subst this
          exact absurd hr' (List.Nodup.not_mem_erase hnodup_rs)
        · exact h
      have hcong : ks.filterMap (fun k' => rs.find? (fun r0 => key r0 == k'))
          = ks.filterMap (fun k' => (rs.erase r).find? (fun r0 => key r0 == k')) := by
        apply List.filterMap_congr
        intro k' hk'
        have hne : key r ≠ k' := by
          intro h
          apply hknot
          rw [← hrkey, h]
          exact hk'
        exact (find?_erase_of_not rs r _ (by simpa using hne)).symm
      have ihr := ih (rs.erase r) hks hrk' herase_keys
      have hhead : ((k :: ks).filterMap (fun k' => rs.find? (fun r0 => key r0 == k')))
          = r :: ks.filterMap (fun k' => rs.find? (fun r0 => key r0 == k')) := by
        simp [List.filterMap_cons, hfind]
      rw [hhead, hcong]
      exact (ihr.cons r).trans (List.perm_cons_erase hrmem).symm

/-- When every score is present, `scoreVal` over a response list is the
list of raw scores. -/
theorem map_scoreVal_eq_filterMap_score (l : List Response)
    (h : ∀ r ∈ l, r.score.isSome) :
    l.map scoreVal = l.filterMap (fun r => r.score) := by
  induction l with
  | nil => rfl
  | cons r l ih =>
    have hr := h r (by simp)
    cases hs : r.score with
    | none => rw [hs] at hr; simp at hr
    | some s =>
      have : scoreVal r = s := by
        unfold scoreVal truthyScore
        rw [hs]
        by_cases h0 : s = 0 <;> simp [h0]
      simp only [List.map_cons, List.filterMap_cons, hs, this]
      exact congrArg (s :: ·) (ih (fun r' hr' => h r' (by simp [hr'])))

/-! ## C3: classification thresholds -/

/-- C3: on scores in [0,100], proficiency is strong iff `s ≥ 75`,
moderate iff `50 ≤ s < 75`, weak iff `s < 50`; the performance level is
excellent iff `s ≥ 85`, good iff `70 ≤ s < 85`, average iff
`50 ≤ s < 70`, poor iff `s < 50`. -/
theorem C3_thresholds (s : ℚ) (h0 : 0 ≤ s) (h1 : s ≤ 100) :
    (get_proficiency_level s = .strong ↔ 75 ≤ s) ∧
    (get_proficiency_level s = .moderate ↔ 50 ≤ s ∧ s < 75) ∧
    (get_proficiency_level s = .weak ↔ s < 50) ∧
    ((get_performance_level s).level = "excellent" ↔ 85 ≤ s) ∧
    ((get_performance_level s).level = "good" ↔ 70 ≤ s ∧ s < 85) ∧
    ((get_performance_level s).level = "average" ↔ 50 ≤ s ∧ s < 70) ∧
    ((get_performance_level s).level = "poor" ↔ s < 50) := by
  unfold get_proficiency_level get_performance_level
  refine ⟨?_, ?_, ?_, ?_, ?_, ?_, ?_⟩ <;>
    · split_ifs with ha hb hc <;>
        simp_all <;>
        first
          | linarith
          | (constructor <;> linarith)
          | (intro h; linarith)
          | (intro h; constructor <;> linarith)

/-- Witness for C3 at the boundary score 75. -/
theorem C3_witness : get_proficiency_level 75 = .strong :=
  ((C3_thresholds 75 (by norm_num) (by norm_num)).1).mpr (by norm_num)

/-! ## C10: zero scores reported as absent -/

/-- C10: a persisted response score of exactly 0 is reported as `null`
by `get_interview_results`, and a persisted `overall_score` of exactly
0 is reported as absent by `get_interview_results` and by the session
listing — the code tests truthiness, not presence. -/
theorem C10_zero_truthiness (db : DB) (iid uid : Nat)
    (itv : Interview) (q : Question) (r : Response)
    (res : InterviewResultsResponse)
    (hi : findInterview db iid = some itv)
    (hmem : itv ∈ db.interviews) (hiu : itv.user_id = uid)
    (hq : q ∈ questionsFor db iid)
    (hr : db.responses.find? (fun r0 => r0.question_id == q.id) = some r)
    (hscore : r.score = some 0)
    (hov : itv.overall_score = some 0)
    (hres : get_interview_results iid db = .ok res) :
    (∃ d ∈ res.responses, d.question_id = q.id ∧ d.score = none) ∧
    res.overall_score = none ∧
    (∃ s ∈ get_user_interviews uid db, s.interview_id = itv.id ∧
      s.overall_score = none) := by
  simp only [get_interview_results, hi] at hres
  obtain rfl : res = _ := by
    cases hres
    rfl
  refine ⟨?_, ?_, ?_⟩
  · exact ⟨_, List.mem_filterMap.mpr ⟨q, mem_sortByKey.mpr hq, by rw [hr]; rfl⟩,
      rfl, by simp [truthyScore, hscore]⟩
  · simp [truthyScore, hov]
  · refine ⟨_, List.mem_map.mpr ⟨itv, mem_sortByKey.mpr
      (List.mem_filter.mpr ⟨hmem, by simp [hiu]⟩), rfl⟩, rfl, ?_⟩
    simp [truthyScore, hov]

def itvC10 : Interview :=
  { id := 1, user_id := 7, job_role := "BE",
    difficulty_level := .intermediate, status := .in_progress,
    overall_score := some 0, started_at := 10, completed_at := none }

def qC10 : Question :=
  { id := 2, interview_id := 1, question_text := "Q1?",
    question_type := .technical, difficulty := "intermediate",
    skill_category := "BE", expected_answer := none, order_number := 1 }

def rC10 : Response :=
  { id := 9, question_id := 2, user_answer := "a", ai_feedback := "f",
    score := some 0, strengths := [], weaknesses := [],
    time_taken_seconds := none }

def dbC10 : DB :=
  { interviews := [itvC10], questions := [qC10], responses := [rC10],
    skill_gaps := [], next_id := 10 }

def resC10 : InterviewResultsResponse :=
  { interview_id := 1, job_role := "BE", difficulty := "intermediate",
    status := "in_progress", overall_score := none, total_questions := 1,
    answered := 1,
    responses := [{ response_id := 9, question_id := 2,
                    question_text := "Q1?", question_type := "technical",
                    order_number := 1, user_answer := "a", score := none,
                    feedback := "f", strengths := [], improvements := [],
                    keywords_mentioned := [], time_taken_seconds := none }],
    created_at := 10, completed_at := none }

/-- Witness for C10: the concrete session with a 0-scored response and
a 0 overall score reports the overall score as absent. -/
theorem C10_witness : resC10.overall_score = none :=
  (C10_zero_truthiness dbC10 1 7 itvC10 qC10 rC10 resC10 rfl (by decide)
    rfl (by decide) rfl rfl rfl (by rfl)).2.1

/-! ## C5: evaluation parse failure persists nothing -/

/-- C5: when the collaborator's evaluation output fails to parse as
JSON after stripping, `submit_answer` fails with a collaborator
failure and the store is unchanged — no `Response` row, no
`overall_score` update. -/
theorem C5_parse_failure_persists_nothing (db : DB) (iid qid : Nat)
    (ua : String) (tt : Option Nat) (loads : String → Option Json)
    (raw : String) (itv : Interview) (q0 : Question)
    (hi : findInterview db iid = some itv)
    (hq : db.questions.find? (fun q => q.id == qid && q.interview_id == iid)
            = some q0)
    (hnone : db.responses.find? (fun r => r.question_id == qid) = none)
    (hparse : loads (stripWrapping raw) = none) :
    submit_answer iid qid ua tt loads raw db
      = (db, .error .collaboratorFailure) := by
  simp [submit_answer, hi, hq, hnone, parse_evaluation, hparse]

def itvC5 : Interview :=
  { id := 1, user_id := 7, job_role := "BE",
    difficulty_level := .intermediate, status := .in_progress,
    overall_score := none, started_at := 10, completed_at := none }

def qC5 : Question :=
  { id := 2, interview_id := 1, question_text := "Q1?",
    question_type := .technical, difficulty := "intermediate",
    skill_category := "BE", expected_answer := none, order_number := 1 }

def dbC5 : DB :=
  { interviews := [itvC5], questions := [qC5], responses := [],
    skill_gaps := [], next_id := 3 }

/-- Witness for C5: a loader that rejects everything makes the concrete
submit call fail with a collaborator failure, leaving the store as it
was. -/
theorem C5_witness :
    submit_answer 1 2 "my answer" none (fun _ => none) "not json" dbC5
      = (dbC5, .error .collaboratorFailure) :=
  C5_parse_failure_persists_nothing dbC5 1 2 "my answer" none
    (fun _ => none) "not json" itvC5 qC5 rfl rfl rfl rfl

/-! ## C9: missing fields fall back to defaults -/

/-- C9: a syntactically valid JSON evaluation object missing the
expected fields still succeeds, persisting score 0, empty feedback and
empty lists instead of rejecting the result. -/
theorem C9_missing_fields_defaults (db : DB) (iid qid : Nat)
    (ua : String) (tt : Option Nat) (loads : String → Option Json)
    (raw : String) (itv : Interview) (q0 : Question)
    (flds : List (String × Json))
    (hi : findInterview db iid = some itv)
    (hq : db.questions.find? (fun q => q.id == qid && q.interview_id == iid)
            = some q0)
    (hnone : db.responses.find? (fun r => r.question_id == qid) = none)
    (hparse : loads (stripWrapping raw) = some (.obj flds))
    (hs : jsonLookup flds "score" = none)
    (hf : jsonLookup flds "feedback" = none)
    (hst : jsonLookup flds "strengths" = none)
    (him : jsonLookup flds "improvements" = none)
    (hkw : jsonLookup flds "keywords_mentioned" = none) :
    submit_answer iid qid ua tt loads raw db
      = (update_interview_score iid
          { db with
            responses := db.responses ++
              [{ id := db.next_id, question_id := qid, user_answer := ua,
                 ai_feedback := "", score := some 0, strengths := [],
                 weaknesses := [], time_taken_seconds := tt }],
            next_id := db.next_id + 1 },
         .ok { response_id := db.next_id, interview_id := iid,
               question_id := qid, question_text := q0.question_text,
               user_answer := ua, score := 0, feedback := "",
               strengths := [], improvements := [],
               keywords_mentioned := [], time_taken_seconds := tt }) := by
  have hext : extractEvaluation flds
      = some { score := 0, feedback := "", strengths := [],
               improvements := [], keywords_mentioned := [] } := by
    simp [extractEvaluation, hs, hf, hst, him, hkw]
  have hany : db.responses.any (fun r0 => r0.question_id == qid) = false := by
    rw [List.any_eq_false]
    intro r0 hr0
    exact List.find?_eq_none.mp hnone r0 hr0
  simp [submit_answer, hi, hq, hnone, parse_evaluation, hparse, hext,
        insertResponse, hany]

def itvC9 : Interview :=
  { id := 1, user_id := 7, job_role := "BE",
    difficulty_level := .intermediate, status := .in_progress,
    overall_score := none, started_at := 10, completed_at := none }

def qC9 : Question :=
  { id := 2, interview_id := 1, question_text := "Q1?",
    question_type := .technical, difficulty := "intermediate",
    skill_category := "BE", expected_answer := none, order_number := 1 }

def dbC9 : DB :=
  { interviews := [itvC9], questions := [qC9], responses := [],
    skill_gaps := [], next_id := 3 }

/-- Witness for C9: submitting against a collaborator that returns the
empty JSON object succeeds with the defaults persisted. -/
theorem C9_witness :
    submit_answer 1 2 "ans" none (fun _ => some (.obj [])) "{}" dbC9
      = (update_interview_score 1
          { dbC9 with
            responses := [{ id := 3, question_id := 2, user_answer := "ans",
                            ai_feedback := "", score := some 0,
                            strengths := [], weaknesses := [],
                            time_taken_seconds := none }],
            next_id := 4 },
         .ok { response_id := 3, interview_id := 1, question_id := 2,
               question_text := "Q1?", user_answer := "ans", score := 0,
               feedback := "", strengths := [], improvements := [],
               keywords_mentioned := [], time_taken_seconds := none }) :=
  C9_missing_fields_defaults dbC9 1 2 "ans" none (fun _ => some (.obj []))
    "{}" itvC9 qC9 [] rfl rfl rfl rfl rfl rfl rfl rfl rfl

/-! ## C2: duplicate submission conflict -/

/-- C2: a second submit for an already-answered question fails with the
conflict error ("has already been answered"), leaves the store — and
thus the existing `Response` — untouched, and independently of the
application pre-check the storage layer's uniqueness constraint on the
question reference rejects any second row for that question. -/
theorem C2_duplicate_conflict (db : DB) (iid qid : Nat) (ua : String)
    (tt : Option Nat) (loads : String → Option Json) (raw : String)
    (itv : Interview) (q0 : Question) (r0 : Response)
    (hi : findInterview db iid = some itv)
    (hq : db.questions.find? (fun q => q.id == qid && q.interview_id == iid)
            = some q0)
    (hr0 : r0 ∈ db.responses) (hr0q : r0.question_id = qid) :
    submit_answer iid qid ua tt loads raw db = (db, .error .conflict) ∧
    (∀ r : Response, r.question_id = qid → insertResponse db r = none) := by
  have hsome : (db.responses.find? (fun r => r.question_id == qid)).isSome := by
    rw [List.find?_isSome]
    exact ⟨r0, hr0, by simp [hr0q]⟩
  constructor
  · simp only [submit_answer, hi, hq, hsome, if_true]
  · intro r hrq
    unfold insertResponse
    have hany : db.responses.any (fun rr => rr.question_id == r.question_id)
        = true := by
      rw [List.any_eq_true]
      exact ⟨r0, hr0, by simp [hr0q, hrq]⟩
    simp [hany]

def itvC2 : Interview :=
  { id := 1, user_id := 7, job_role := "BE",
    difficulty_level := .intermediate, status := .in_progress,
    overall_score := some 80, started_at := 10, completed_at := none }

def qC2 : Question :=
  { id := 2, interview_id := 1, question_text := "Q1?",
    question_type := .technical, difficulty := "intermediate",
    skill_category := "BE", expected_answer := none, order_number := 1 }

def rC2 : Response :=
  { id := 9, question_id := 2, user_answer := "first", ai_feedback := "f",
    score := some 80, strengths := [], weaknesses := [],
    time_taken_seconds := none }

def dbC2 : DB :=
  { interviews := [itvC2], questions := [qC2], responses := [rC2],
    skill_gaps := [], next_id := 10 }

def rC2dup : Response :=
  { id := 11, question_id := 2, user_answer := "second", ai_feedback := "",
    score := some 50, strengths := [], weaknesses := [],
    time_taken_seconds := none }

/-- Witness for C2: the concrete duplicate submit is rejected with a
conflict and the storage constraint refuses a second row. -/
theorem C2_witness :
    submit_answer 1 2 "second" none (fun _ => none) "raw" dbC2
      = (dbC2, .error .conflict) ∧ insertResponse dbC2 rC2dup = none :=
  ⟨(C2_duplicate_conflict dbC2 1 2 "second" none (fun _ => none) "raw"
      itvC2 qC2 rC2 rfl rfl (by decide) rfl).1,
   (C2_duplicate_conflict dbC2 1 2 "second" none (fun _ => none) "raw"
      itvC2 qC2 rC2 rfl rfl (by decide) rfl).2 rC2dup rfl⟩

/-! ## C6: summarization failure degrades gracefully -/

/-- C6: with at least one answered question, a summarization
collaborator failure (raise or unparseable output, `summarizeOutcome =
none`) never fails `get_interview_score`: the call returns the full
score computation with the deterministic templated summary built from
the overall score. -/
theorem C6_summary_fallback (db : DB) (iid : Nat) (itv : Interview)
    (hi : findInterview db iid = some itv)
    (hans : sessionResponses db iid ≠ []) :
    get_interview_score iid true none db
      = (setOverallScore db iid (some (overall_of db iid)),
         .ok { interview_id := itv.id, job_role := itv.job_role,
               difficulty := difficultyStr itv.difficulty_level,
               status := statusStr itv.status,
               overall_score := overall_of db iid,
               performance := get_performance_level (overall_of db iid),
               total_questions := (sortedQuestions db iid).length,
               answered := (sessionResponses db iid).length,
               skipped := (sortedQuestions db iid).length
                            - (sessionResponses db iid).length,
               completion_rate :=
                 if (sortedQuestions db iid).length > 0 then
                   round2 (((sessionResponses db iid).length : ℚ)
                     / ((sortedQuestions db iid).length : ℚ) * 100)
                 else 0,
               category_scores := calculate_category_scores
                 (sortedQuestions db iid) (fun qid => respOf db iid qid),
               question_scores := question_scores_of db iid,
               overall_summary :=
                 some ("Interview completed with an overall score of "
                       ++ formatFix1 (overall_of db iid) ++ "/100."),
               top_strengths := ["Completed the interview"],
               top_improvements := ["Review answers for improvement areas"],
               started_at := itv.started_at,
               completed_at := itv.completed_at }) := by
  have hlen : 0 < (sessionResponses db iid).length :=
    List.length_pos.mpr hans
  simp [get_interview_score, hi, hlen, generate_summary, summaryFallback,
        extractSummaryFields, jsonLookup, asStringList]
  rfl

def itvC6 : Interview :=
  { id := 1, user_id := 7, job_role := "BE",
    difficulty_level := .intermediate, status := .in_progress,
    overall_score := none, started_at := 10, completed_at := none }

def qC6 : Question :=
  { id := 2, interview_id := 1, question_text := "Q1?",
    question_type := .technical, difficulty := "intermediate",
    skill_category := "BE", expected_answer := none, order_number := 1 }

def rC6 : Response :=
  { id := 9, question_id := 2, user_answer := "a", ai_feedback := "f",
    score := some 80, strengths := [], weaknesses := [],
    time_taken_seconds := none }

def dbC6 : DB :=
  { interviews := [itvC6], questions := [qC6], responses := [rC6],
    skill_gaps := [], next_id := 10 }

/-- Witness for C6: the concrete answered session gets the templated
summary when the summarizer fails. -/
theorem C6_witness :
    (get_interview_score 1 true none dbC6).2.toOption.map
        (fun r => (r.top_strengths, r.top_improvements)) =
      some (["Completed the interview"],
            ["Review answers for improvement areas"]) := by
  rw [C6_summary_fallback dbC6 1 itvC6 rfl (by decide)]
  rfl

/-! ## C7 (corrected): analyze with no answers -/

/-- C7 as amended: on a session with no cached SkillGap rows (or
analyzed with `force`), at least one question but zero answered
responses, analyze fails with the no-answers validation error and
persists nothing; a session with zero questions instead fails earlier
with the no-questions error (also persisting nothing). -/
theorem C7_no_answers (db : DB) (iid uid : Nat) (force : Bool)
    (o : Option Json) (now : Nat) (itv : Interview)
    (hi : findInterview db iid = some itv)
    (hcache : db.skill_gaps.filter (fun g => g.interview_id == iid) = []
                ∨ force = true) :
    (questionsFor db iid ≠ [] → sessionResponses db iid = [] →
       analyze_interview iid uid force o now db = (db, .error .noAnswers)) ∧
    (questionsFor db iid = [] →
       analyze_interview iid uid force o now db = (db, .error .noQuestions)) := by
  have hcond : (!(db.skill_gaps.filter (fun g => g.interview_id == iid)).isEmpty
      && !force) = false := by
    rcases hcache with h | h
    · simp [h]
    · simp [h]
  constructor
  · intro hq hnr
    simp [analyze_interview, hi, hcond, hq, hnr]
  · intro hq
    simp [analyze_interview, hi, hcond, hq]

def itvC7 : Interview :=
  { id := 1, user_id := 7, job_role := "BE",
    difficulty_level := .intermediate, status := .in_progress,
    overall_score := none, started_at := 10, completed_at := none }

/-- A session with no questions at all (the generation collaborator may
legitimately return an empty array, accepted silently). -/
def dbC7 : DB :=
  { interviews := [itvC7], questions := [], responses := [],
    skill_gaps := [], next_id := 3 }

/-- Counterexample to C7 as stated: this session has no cached SkillGap
rows and zero answered responses, yet analyze fails with the
no-questions error, not the claimed `ValidationFailed` ("no answers
yet"). -/
theorem C7_counterexample :
    analyze_interview 1 7 false none 99 dbC7 = (dbC7, .error .noQuestions) ∧
    (analyze_interview 1 7 false none 99 dbC7).2
      ≠ (.error .noAnswers : Except AnalyzeError AnalyzeSkillGapsResponse) := by
  refine ⟨rfl, ?_⟩
  intro h
  rw [show (analyze_interview 1 7 false none 99 dbC7).2
      = (.error .noQuestions : Except AnalyzeError AnalyzeSkillGapsResponse)
      from rfl] at h
  simp at h

def qC7 : Question :=
  { id := 2, interview_id := 1, question_text := "Q1?",
    question_type := .technical, difficulty := "intermediate",
    skill_category := "BE", expected_answer := none, order_number := 1 }

def dbC7w : DB :=
  { interviews := [itvC7], questions := [qC7], responses := [],
    skill_gaps := [], next_id := 3 }

/-- Witness for C7 as amended: with a question present but unanswered,
analyze fails with the no-answers error and the store is unchanged. -/
theorem C7_witness :
    analyze_interview 1 7 false none 99 dbC7w = (dbC7w, .error .noAnswers) :=
  (C7_no_answers dbC7w 1 7 false none 99 itvC7 rfl (Or.inl rfl)).1
    (by decide) rfl

/-! ## C8: skill categories collapse to the job role -/

theorem updateAssoc_keys_same {β : Type} (k : String) (dflt : β) (f : β → β)
    (l : List (String × β)) (hl : l.map Prod.fst = [k]) :
    (updateAssoc k dflt f l).map Prod.fst = [k] := by
  cases l with
  | nil => simp at hl
  | cons x xs =>
    cases xs with
    | nil =>
      obtain ⟨h1, -⟩ : x.1 = k ∧ True := by simpa using hl
      simp [updateAssoc, h1]
    | cons y ys => simp at hl

theorem build_skill_scores_keys_const (qs : List Question)
    (respOf : Nat → Option Response) (k : String)
    (hk : ∀ q ∈ qs, skillKey q = k) (hne : qs ≠ []) :
    (build_skill_scores qs respOf).map Prod.fst = [k] := by
  unfold build_skill_scores
  have step : ∀ (rest : List Question) (acc : List (String × List ℚ)),
      (∀ q ∈ rest, skillKey q = k) → acc.map Prod.fst = [k] →
      ((rest.foldl (fun acc q => updateAssoc (skillKey q) []
        (fun d => match respOf q.id with
          | some r => match r.score with
            | some s => d ++ [s]
            | none => d
          | none => d) acc) acc).map Prod.fst) = [k] := by
    intro rest
    induction rest with
    | nil => intro acc _ hacc; simpa using hacc
    | cons q rest ih =>
      intro acc hrest hacc
      simp only [List.foldl_cons]
      refine ih _ (fun q' hq' => hrest q' (by simp [hq'])) ?_
      rw [hrest q (by simp)]
      exact updateAssoc_keys_same k _ _ acc hacc
  cases qs with
  | nil => exact absurd rfl hne
  | cons q rest =>
    simp only [List.foldl_cons, List.map_map]
    have hfirst : (updateAssoc (skillKey q) []
        (fun d => match respOf q.id with
          | some r => match r.score with
            | some s => d ++ [s]
            | none => d
          | none => d) []).map Prod.fst = [k] := by
      simp [updateAssoc, hk q (by simp)]
    have := step rest _ (fun q' hq' => hk q' (by simp [hq'])) hfirst
    rw [show (Prod.fst ∘ fun kv : String × List ℚ =>
        (kv.1, round2 (if kv.2.isEmpty then 0 else meanQ kv.2))) = Prod.fst
      from rfl]
    exact this

/-- C8: every question persisted by `create_interview` carries the
session's job role as its `skill_category` — the collaborator's skill
category is never stored — so skill-gap grouping over one session
yields exactly one skill, named after the job role. -/
theorem C8_skill_category_is_job_role (db : DB) (uid : Nat)
    (job_role difficulty : String) (qdata : List GenQuestion) (now : Nat)
    (hrole : 2 ≤ job_role.length)
    (hfresh : ∀ q ∈ db.questions, q.interview_id ≠ db.next_id) :
    (∀ q ∈ questionsFor (create_interview uid job_role difficulty qdata now db).1
        (create_interview uid job_role difficulty qdata now db).2,
       q.skill_category = job_role) ∧
    (qdata ≠ [] → ∀ respOfFn : Nat → Option Response,
       (build_skill_scores
         (questionsFor (create_interview uid job_role difficulty qdata now db).1
           (create_interview uid job_role difficulty qdata now db).2)
         respOfFn).map Prod.fst = [job_role]) := by
  have hrne : job_role ≠ "" := by
    intro h
    rw [h] at hrole
    simp at hrole
  have hqs : questionsFor (create_interview uid job_role difficulty qdata now db).1
      (create_interview uid job_role difficulty qdata now db).2
      = (qdata.enum).map (fun p =>
        ({ id := db.next_id + 1 + p.1, interview_id := db.next_id,
           question_text := p.2.question,
           question_type := map_question_type (p.2.qtype.getD "technical"),
           difficulty := p.2.difficulty.getD difficulty,
           skill_category := job_role,
           expected_answer :=
             some (String.intercalate ", " (p.2.expected_points.getD [])),
           order_number := p.1 + 1 } : Question)) := by
    unfold create_interview questionsFor
    simp only [List.filter_append]
    rw [List.filter_eq_nil_iff.mpr (by
      intro q hq
      simpa using hfresh q hq)]
    rw [List.filter_eq_self.mpr (by
      intro q hq
      obtain ⟨p, -, rfl⟩ := List.mem_map.mp hq
      simp)]
    simp
  constructor
  · intro q hq
    rw [hqs] at hq
    obtain ⟨p, -, rfl⟩ := List.mem_map.mp hq
    rfl
  · intro hne respOfFn
    rw [hqs]
    apply build_skill_scores_keys_const
    · intro q hq
      obtain ⟨p, -, rfl⟩ := List.mem_map.mp hq
      simp [skillKey, hrne]
    · simp [hne]

def itvC8 : Interview :=
  { id := 1, user_id := 7, job_role := "BE",
    difficulty_level := .intermediate, status := .in_progress,
    overall_score := none, started_at := 10, completed_at := none }

def dbC8 : DB :=
  { interviews := [itvC8], questions := [], responses := [],
    skill_gaps := [], next_id := 3 }

def gqC8 : GenQuestion :=
  { question := "Qx", qtype := some "behavioral", difficulty := none,
    expected_points := some ["p1", "p2"], skill_category := some "SQL" }

/-- Witness for C8: even though the collaborator tagged the generated
question with skill "SQL", the session's single skill group is the job
role. -/
theorem C8_witness :
    (build_skill_scores
      (questionsFor (create_interview 7 "Data Scientist" "advanced" [gqC8] 5 dbC8).1
        (create_interview 7 "Data Scientist" "advanced" [gqC8] 5 dbC8).2)
      (fun _ => none)).map Prod.fst = ["Data Scientist"] :=
  (C8_skill_category_is_job_role dbC8 7 "Data Scientist" "advanced" [gqC8] 5
    (by decide) (by decide)).2 (List.cons_ne_nil _ _) (fun _ => none)

/-! ## C4: skill-gap cache hit and forced replacement -/

/-- C4: with cached SkillGap rows present, `analyze` with `force =
false` returns exactly the stored rows with the store unchanged,
independently of the collaborator outcome (so two consecutive calls
return identical SkillGap sets); with `force = true` a successful run
replaces the session's entire SkillGap set wholesale with the freshly
computed one, and a failed run changes nothing. -/
theorem C4_cache_and_replace (db : DB) (iid uid : Nat) (now : Nat)
    (o : Option Json) (itv : Interview)
    (hi : findInterview db iid = some itv)
    (hex : db.skill_gaps.filter (fun g => g.interview_id == iid) ≠ []) :
    (∀ (o' : Option Json) (now' : Nat),
       analyze_interview iid uid false o' now' db
         = (db, .ok (build_response_from_existing itv
             (db.skill_gaps.filter (fun g => g.interview_id == iid)) now'))) ∧
    (∀ (o' : Option Json) (now' : Nat),
       (analyze_interview iid uid false o now db).2.toOption.map
           (fun r => r.skill_gaps)
         = ((analyze_interview iid uid false o' now'
              (analyze_interview iid uid false o now db).1).2.toOption.map
             (fun r => r.skill_gaps))) ∧
    (∀ db' resp, analyze_interview iid uid true o now db = (db', .ok resp) →
       ∃ newGaps, db'.skill_gaps
           = db.skill_gaps.filter (fun g => g.interview_id != iid) ++ newGaps
         ∧ (∀ g ∈ newGaps, g.interview_id = iid ∧ g.identified_at = now)
         ∧ resp.skill_gaps = newGaps.map (fun g =>
             { skill_name := g.skill_name, gap_score := g.gap_score,
               proficiency_level := g.proficiency_level,
               recommendation := g.recommendation })) ∧
    (∀ db' e, analyze_interview iid uid true o now db = (db', .error e) →
       db' = db) := by
  have hne : (db.skill_gaps.filter (fun g => g.interview_id == iid)).isEmpty
      = false := by
    cases hl : (db.skill_gaps.filter (fun g => g.interview_id == iid)).isEmpty
    · rfl
    · exact absurd (List.isEmpty_iff.mp hl) hex
  have h1 : ∀ (o' : Option Json) (now' : Nat),
      analyze_interview iid uid false o' now' db
        = (db, .ok (build_response_from_existing itv
            (db.skill_gaps.filter (fun g => g.interview_id == iid)) now')) := by
    intro o' now'
    simp [analyze_interview, hi, hne]
  refine ⟨h1, ?_, ?_, ?_⟩
  · intro o' now'
    rw [h1 o now]
    rw [show ((db, Except.ok (ε := AnalyzeError) (build_response_from_existing itv
      (db.skill_gaps.filter (fun g => g.interview_id == iid)) now)).1 : DB) = db
      from rfl]
    rw [h1 o' now']
    rfl
  · intro db' resp h
    simp only [analyze_interview, hi, Bool.not_true, Bool.and_false,
      Bool.false_eq_true, if_false] at h
    by_cases hq : (questionsFor db iid).isEmpty
    · rw [if_pos hq] at h
      simp at h
    · rw [if_neg hq] at h
      by_cases hr : (sessionResponses db iid).isEmpty
      · rw [if_pos hr] at h
        simp at h
      · rw [if_neg hr] at h
        cases hrec : recommendationsFor o
            (build_skill_scores (questionsFor db iid)
              (fun qid => respOf db iid qid)) with
        | none =>
          rw [hrec] at h
          simp at h
        | some recs =>
          rw [hrec] at h
          dsimp only at h
          have hdb := congrArg Prod.fst h
          have hresp := congrArg Prod.snd h
          dsimp only at hdb hresp
          refine ⟨freshGaps uid iid now
            (build_skill_scores (questionsFor db iid)
              (fun qid => respOf db iid qid)) recs db.next_id, ?_, ?_, ?_⟩
          · rw [← hdb]
          · intro g hg
            obtain ⟨p, -, rfl⟩ := List.mem_map.mp hg
            exact ⟨rfl, rfl⟩
          · have hre := Except.ok.inj hresp
            rw [← hre]
  · intro db' e h
    simp only [analyze_interview, hi, Bool.not_true, Bool.and_false,
      Bool.false_eq_true, if_false] at h
    by_cases hq : (questionsFor db iid).isEmpty
    · rw [if_pos hq] at h
      exact (congrArg Prod.fst h).symm
    · rw [if_neg hq] at h
      by_cases hr : (sessionResponses db iid).isEmpty
      · rw [if_pos hr] at h
        exact (congrArg Prod.fst h).symm
      · rw [if_neg hr] at h
        cases hrec : recommendationsFor o
            (build_skill_scores (questionsFor db iid)
              (fun qid => respOf db iid qid)) with
        | none =>
          rw [hrec] at h
          exact (congrArg Prod.fst h).symm
        | some recs =>
          rw [hrec] at h
          simp at h

def itvC4 : Interview :=
  { id := 1, user_id := 7, job_role := "BE",
    difficulty_level := .intermediate, status := .in_progress,
    overall_score := some 80, started_at := 10, completed_at := none }

def qC4 : Question :=
  { id := 2, interview_id := 1, question_text := "Q1?",
    question_type := .technical, difficulty := "intermediate",
    skill_category := "BE", expected_answer := none, order_number := 1 }

def rC4 : Response :=
  { id := 9, question_id := 2, user_answer := "a", ai_feedback := "f",
    score := some 80, strengths := [], weaknesses := [],
    time_taken_seconds := none }

def gapC4 : SkillGap :=
  { id := 10, user_id := 7, interview_id := 1, skill_name := "BE",
    proficiency_level := .strong, gap_score := 80,
    recommendation := "keep going", identified_at := 99 }

def dbC4 : DB :=
  { interviews := [itvC4], questions := [qC4], responses := [rC4],
    skill_gaps := [gapC4], next_id := 11 }

/-- Witness for C4: the concrete cached session returns its stored
rows unchanged even when the collaborator would answer differently. -/
theorem C4_witness :
    analyze_interview 1 7 false (some (.obj [])) 123 dbC4
      = (dbC4, .ok (build_response_from_existing itvC4
          (dbC4.skill_gaps.filter (fun g => g.interview_id == 1)) 123)) :=
  (C4_cache_and_replace dbC4 1 7 99 none itvC4 rfl (by decide)).1
    (some (.obj [])) 123

/-! ## C1: the overall-score invariant -/

theorem meanQ_perm {l l' : List ℚ} (h : l.Perm l') : meanQ l = meanQ l' := by
  unfold meanQ
  rw [h.sum_eq, h.length_eq]

theorem specOverallScore_setOverall (db : DB) (iid : Nat) (v : Option ℚ)
    (iid' : Nat) :
    specOverallScore (setOverallScore db iid v) iid' = specOverallScore db iid' :=
  rfl

/-- The `scored_values` aggregate of `get_interview_score` coincides with the
spec's mean over the session's scored responses: under the storage
uniqueness invariants, and with every persisted score non-null, the
per-question lookup enumerates the session's responses exactly once. -/
theorem overall_of_eq_spec (db : DB) (iid : Nat)
    (hqn : (db.questions.map Question.id).Nodup)
    (hrn : (db.responses.map Response.question_id).Nodup)
    (hsc : ∀ r ∈ sessionResponses db iid, r.score.isSome) :
    overall_of db iid = (specOverallScore db iid).getD 0 := by
  have h1 : scored_values db iid
      = (((sortedQuestions db iid).map Question.id).filterMap
          (fun k => (sessionResponses db iid).find?
            (fun r => r.question_id == k))).map scoreVal := by
    rw [List.map_filterMap, List.filterMap_map]
    rfl
  have hqperm : (sortedQuestions db iid).Perm (questionsFor db iid) :=
    sortByKey_perm _ _
  have hq0 : ((questionsFor db iid).map Question.id).Nodup :=
    List.Nodup.sublist (List.Sublist.map Question.id
      (List.filter_sublist db.questions)) hqn
  have hkeys : ((sortedQuestions db iid).map Question.id).Nodup :=
    ((hqperm.map Question.id).nodup_iff).mpr hq0
  have hrk : ∀ r ∈ sessionResponses db iid,
      r.question_id ∈ (sortedQuestions db iid).map Question.id := by
    intro r hr
    have hmem := (List.mem_filter.mp hr).2
    have : r.question_id ∈ questionIds db iid := by
      simpa using hmem
    exact (hqperm.map Question.id).mem_iff.mpr (by simpa [questionIds] using this)
  have hrn' : ((sessionResponses db iid).map Response.question_id).Nodup :=
    List.Nodup.sublist (List.Sublist.map Response.question_id
      (List.filter_sublist db.responses)) hrn
  have hperm : (((sortedQuestions db iid).map Question.id).filterMap
      (fun k => (sessionResponses db iid).find?
        (fun r => r.question_id == k))).Perm (sessionResponses db iid) :=
    filterMap_find?_perm Response.question_id _ _ hkeys hrk hrn'
  have hperm2 : (scored_values db iid).Perm
      ((sessionResponses db iid).map scoreVal) := by
    rw [h1]
    exact hperm.map scoreVal
  have hmap : (sessionResponses db iid).map scoreVal
      = (sessionResponses db iid).filterMap (fun r => r.score) :=
    map_scoreVal_eq_filterMap_score _ hsc
  have hperm3 : (scored_values db iid).Perm
      ((sessionResponses db iid).filterMap (fun r => r.score)) := by
    rw [← hmap]
    exact hperm2
  unfold overall_of specOverallScore
  by_cases hnil : ((sessionResponses db iid).filterMap (fun r => r.score)) = []
  · have : scored_values db iid = [] := by
      rw [hnil] at hperm3
      exact List.Perm.eq_nil hperm3
    simp [this, hnil]
  · have hsn : ¬ scored_values db iid = [] := by
      intro h0
      rw [h0] at hperm3
      exact hnil (List.Perm.nil_eq hperm3).symm
    simp only [List.isEmpty_iff, hnil, hsn, if_neg, if_false]
    rw [meanQ_perm hperm3]
    rfl

/-- C1 as amended: after every successful submission the persisted
`overall_score` equals `round(mean(score over the session's responses
with a non-null score), 2)`; `get_interview_score` also persists that
value whenever at least one response exists but, on a session with zero
scored responses, it persists `0.0` — set to zero, not left unset as
the claim states.  (The uniqueness hypotheses are the storage
constraints: distinct question ids, one response per question; every
persisted score is non-null, as `submit_answer` always writes one.) -/
theorem C1_overall_score (db : DB) (iid qid : Nat) (ua : String)
    (tt : Option Nat) (loads : String → Option Json) (raw : String)
    (gen : Bool) (so : Option Json)
    (hqn : (db.questions.map Question.id).Nodup)
    (hrn : (db.responses.map Response.question_id).Nodup)
    (hsc : ∀ r ∈ sessionResponses db iid, r.score.isSome) :
    (∀ db' resp, submit_answer iid qid ua tt loads raw db = (db', .ok resp) →
       (findInterview db' iid).map Interview.overall_score
         = some (specOverallScore db' iid)) ∧
    (∀ db' out itv, get_interview_score iid gen so db = (db', out) →
       findInterview db' iid = some itv →
       itv.overall_score = some ((specOverallScore db' iid).getD 0)) := by
  constructor
  · intro db' resp h
    unfold submit_answer at h
    cases hfi : findInterview db iid with
    | none =>
      rw [hfi] at h
      simp at h
    | some itv0 =>
      rw [hfi] at h
      dsimp only at h
      cases hfq : db.questions.find?
          (fun q => q.id == qid && q.interview_id == iid) with
      | none =>
        rw [hfq] at h
        simp at h
      | some q0 =>
        rw [hfq] at h
        dsimp only at h
        cases hfr : db.responses.find? (fun r => r.question_id == qid) with
        | some r0 =>
          rw [hfr] at h
          simp at h
        | none =>
          rw [hfr] at h
          simp only [Option.isSome_none, Bool.false_eq_true, if_false] at h
          cases hparse : parse_evaluation loads raw with
          | none =>
            rw [hparse] at h
            simp at h
          | some j =>
            rw [hparse] at h
            cases j with
            | obj fields =>
              dsimp only at h
              cases hext : extractEvaluation fields with
              | none =>
                rw [hext] at h
                simp at h
              | some ev =>
                rw [hext] at h
                dsimp only at h
                have hany : db.responses.any
                    (fun r0 => r0.question_id == qid) = false := by
                  rw [List.any_eq_false]
                  intro r0 hr0
                  exact List.find?_eq_none.mp hfr r0 hr0
                rw [show insertResponse { db with next_id := db.next_id + 1 }
                    { id := db.next_id, question_id := qid, user_answer := ua,
                      ai_feedback := ev.feedback, score := some ev.score,
                      strengths := ev.strengths, weaknesses := ev.improvements,
                      time_taken_seconds := tt }
                    = some { db with
                             next_id := db.next_id + 1,
                             responses := db.responses ++
                               [{ id := db.next_id, question_id := qid,
                                  user_answer := ua,
                                  ai_feedback := ev.feedback,
                                  score := some ev.score,
                                  strengths := ev.strengths,
                                  weaknesses := ev.improvements,
                                  time_taken_seconds := tt }] }
                  from by simp [insertResponse, hany]] at h
                dsimp only at h
                have hdb := congrArg Prod.fst h
                dsimp only at hdb
                -- the freshly inserted response
                set rNew : Response :=
                  { id := db.next_id, question_id := qid, user_answer := ua,
                    ai_feedback := ev.feedback, score := some ev.score,
                    strengths := ev.strengths, weaknesses := ev.improvements,
                    time_taken_seconds := tt } with hrNew
                set db1 : DB :=
                  { db with
                    next_id := db.next_id + 1,
                    responses := db.responses ++ [rNew] } with hdb1
                have hq0 := List.find?_some hfq
                simp only [Bool.and_eq_true, beq_iff_eq] at hq0
                have hq0id : q0.id = qid := hq0.1
                have hq0iid : q0.interview_id = iid := hq0.2
                have hq0mem : q0 ∈ db.questions := List.mem_of_find?_eq_some hfq
                have hqidmem : qid ∈ questionIds db1 iid := by
                  unfold questionIds questionsFor
                  refine List.mem_map.mpr ⟨q0, ?_, hq0id⟩
                  exact List.mem_filter.mpr ⟨hq0mem, by simp [hq0iid]⟩
                have hrmem : rNew ∈ sessionResponses db1 iid := by
                  unfold sessionResponses
                  refine List.mem_filter.mpr ⟨?_, ?_⟩
                  · show rNew ∈ db.responses ++ [rNew]
                    simp
                  · simpa using hqidmem
                have hscores : ¬ ((sessionResponses db1 iid).filterMap
                    (fun r => r.score) = []) := by
                  intro h0
                  have := List.filterMap_eq_nil_iff.mp h0 rNew hrmem
                  simp [hrNew] at this
                have hupd : update_interview_score iid db1
                    = setOverallScore db1 iid (some (round2 (meanQ
                        ((sessionResponses db1 iid).filterMap
                          (fun r => r.score))))) := by
                  unfold update_interview_score
                  rw [show findInterview db1 iid = some itv0 from hfi]
                  dsimp only
                  rw [if_neg (by simpa [List.isEmpty_iff] using hscores)]
                rw [hupd] at hdb
                rw [← hdb]
                rw [findInterview_setOverall]
                rw [show findInterview db1 iid = some itv0 from hfi]
                rw [specOverallScore_setOverall]
                unfold specOverallScore
                simp only [List.isEmpty_iff, hscores, if_neg, if_false]
                rfl
            | null => simp at h
            | bool b => simp at h
            | num q => simp at h
            | str s => simp at h
            | arr xs => simp at h
  · intro db' out itv h hfi'
    cases hfi : findInterview db iid with
    | none =>
      unfold get_interview_score at h
      rw [hfi] at h
      dsimp only at h
      have hdb := congrArg Prod.fst h
      dsimp only at hdb
      rw [← hdb] at hfi'
      rw [hfi] at hfi'
      cases hfi'
    | some itv0 =>
      unfold get_interview_score at h
      rw [hfi] at h
      dsimp only at h
      have hdb : db' = setOverallScore db iid (some (overall_of db iid)) := by
        generalize hS : extractSummaryFields _ = S at h
        cases S with
        | none =>
          have := congrArg Prod.fst h
          dsimp only at this
          exact this.symm
        | some s =>
          obtain ⟨os, ts, ti⟩ := s
          have := congrArg Prod.fst h
          dsimp only at this
          exact this.symm
      rw [hdb] at hfi'
      rw [findInterview_setOverall, hfi] at hfi'
      simp only [Option.map_some'] at hfi'
      have hitv := (Option.some.inj hfi').symm
      rw [hitv, hdb, specOverallScore_setOverall]
      rw [overall_of_eq_spec db iid hqn hrn hsc]

def itvC1 : Interview :=
  { id := 1, user_id := 7, job_role := "BE",
    difficulty_level := .intermediate, status := .in_progress,
    overall_score := none, started_at := 10, completed_at := none }

def qC1 : Question :=
  { id := 2, interview_id := 1, question_text := "Q1?",
    question_type := .technical, difficulty := "intermediate",
    skill_category := "BE", expected_answer := none, order_number := 1 }

/-- A session with one question and zero scored responses. -/
def dbC1 : DB :=
  { interviews := [itvC1], questions := [qC1], responses := [],
    skill_gaps := [], next_id := 3 }

/-- Counterexample to C1 as stated: on a session with zero scored
responses, `get_interview_score` persists `overall_score = 0.0`, while
the claimed invariant requires it to stay unset (the spec-side formula
yields no value). -/
theorem C1_counterexample :
    (findInterview (get_interview_score 1 true none dbC1).1 1).map
        Interview.overall_score = some (some 0) ∧
    specOverallScore (get_interview_score 1 true none dbC1).1 1 = none := by
  exact ⟨rfl, rfl⟩

def loadsC1 : String → Option Json := fun _ =>
  some (.obj [("score", .num 80), ("feedback", .str "ok"),
              ("strengths", .arr []), ("improvements", .arr []),
              ("keywords_mentioned", .arr [])])

/-- Witness for C1 as amended: a successful submission leaves the
persisted overall score equal to the spec-side formula. -/
theorem C1_witness :
    (findInterview (submit_answer 1 2 "a" none loadsC1 "raw" dbC1).1 1).map
        Interview.overall_score
      = some (specOverallScore (submit_answer 1 2 "a" none loadsC1 "raw" dbC1).1 1) :=
  (C1_overall_score dbC1 1 2 "a" none loadsC1 "raw" true none (by decide)
    (by decide) (by decide)).1
    (submit_answer 1 2 "a" none loadsC1 "raw" dbC1).1
    { response_id := 3, interview_id := 1, question_id := 2,
      question_text := "Q1?", user_answer := "a", score := 80,
      feedback := "ok", strengths := [], improvements := [],
      keywords_mentioned := [], time_taken_seconds := none }
    rfl

end InterviewSim
